import Mathlib

/-!
Shallow embedding of the `bassert` assertion library (src/src/lib.rs).

The library provides one macro, `bassert!`, dispatching on the operator written
between two operands (`==`, `!=`, `>`, `<`, `>=`, `<=`) or the pattern-match
form `pat = rhs`, plus a debug-gated wrapper `debug_bassert!`.

Modelling choices:
- A Rust panic (fatal, non-returning termination) is modelled as
  `Except.error msg`, where `msg` is the exact diagnostic string the code
  builds; normal return is `Except.ok ()`.
- Operand expressions may have side effects, so an expression is modelled as a
  state transformer `StateExpr σ α = σ → α × σ`; evaluating it exactly once
  means applying it to the state exactly once.
- The `Debug` trait rendering of a value is a caller-supplied function
  `α → String` (the `{:?}` rendering).
- The comparison written between the operands is a caller-supplied function
  `Lhs → Rhs → Bool` (the operand type's own comparison, per the macro arms).
- The match pattern of the `$lhs:pat = $rhs:tt` arm is modelled as a predicate
  `Rhs → Bool` (does the value's shape satisfy the pattern).
- A name-resolution failure inside a macro expansion (a `$crate::NAME!` path
  naming no exported item) is a compile error at the use site, modelled as
  `Except.error` at the expansion level.
-/

namespace Bassert

/-- Embeds `internal::BassertKind` (src/src/lib.rs:334-342): the closed tag of
assertion kinds. -/
inductive BassertKind where
  | Eq
  | Ne
  | Gt
  | Lt
  | Gte
  | Lte
  | Match
deriving DecidableEq

/-- Embeds the `let op = match kind` table inside `internal::bassert_failed`
(src/src/lib.rs:359-367): the display symbol of each kind. -/
def opSymbol : BassertKind → String
  | .Eq => "=="
  | .Ne => "!="
  | .Gt => ">"
  | .Lt => "<"
  | .Gte => ">="
  | .Lte => "<="
  | .Match => "="

/-- Embeds `internal::bassert_failed` (src/src/lib.rs:347-384).  The Rust
function formats the diagnostic and panics (return type `!`); the panic is
modelled as `Except.error` carrying the exact panic message.  `lhsDebug` and
`rhsDebug` stand for the operands' `Debug` trait implementations. -/
def bassert_failed {Lhs Rhs : Type} (kind : BassertKind)
    (lhs_expr rhs_expr : String) (lhs : Lhs) (rhs : Rhs)
    (lhsDebug : Lhs → String) (rhsDebug : Rhs → String)
    (args : Option String) : Except String Unit :=
  let op := opSymbol kind
  match args with
  | some a =>
      Except.error ("assertion failed: `" ++ lhs_expr ++ " " ++ op ++ " " ++ rhs_expr
        ++ "`\n" ++ lhs_expr ++ ": `" ++ lhsDebug lhs ++ "`,\n"
        ++ rhs_expr ++ ": `" ++ rhsDebug rhs ++ "`: " ++ a)
  | none =>
      Except.error ("assertion failed: `" ++ lhs_expr ++ " " ++ op ++ " " ++ rhs_expr
        ++ "`\n" ++ lhs_expr ++ ": `" ++ lhsDebug lhs ++ "`,\n"
        ++ rhs_expr ++ ": `" ++ rhsDebug rhs ++ "`")

/-- Embeds `internal::bassert_match_failed` (src/src/lib.rs:389-411): the
failure reporter of the pattern-match form, with the fixed symbol `=` and a
single value line for the right-hand side. -/
def bassert_match_failed {Rhs : Type} (pat_text rhs_expr : String)
    (rhs : Rhs) (rhsDebug : Rhs → String)
    (args : Option String) : Except String Unit :=
  match args with
  | some a =>
      Except.error ("assertion failed: `" ++ pat_text ++ " = " ++ rhs_expr
        ++ "`\n" ++ rhs_expr ++ ": `" ++ rhsDebug rhs ++ "`: " ++ a)
  | none =>
      Except.error ("assertion failed: `" ++ pat_text ++ " = " ++ rhs_expr
        ++ "`\n" ++ rhs_expr ++ ": `" ++ rhsDebug rhs ++ "`")

/-- An operand (or format-argument) expression with possible side effects:
a state transformer producing a value and the next state. -/
def StateExpr (σ α : Type) : Type := σ → α × σ

/-- Embeds the `bassert_internal!` macro (src/src/lib.rs:290-326).  The macro
binds `&lhs_expr` and `&rhs_expr` exactly once via
`match (&lhs, &rhs) { (lhs, rhs) => ... }`, evaluates the written comparison on
the bound references, and on failure calls `internal::bassert_failed`, with the
custom-message `format_args!` evaluated inside the failure branch only.  The
two macro arms (without and with trailing format arguments) are merged via the
`args : Option _` parameter, mirroring the `Option::None` / `Option::Some`
the two arms pass. -/
def bassert_internal {σ Lhs Rhs : Type} (kind : BassertKind)
    (cmp : Lhs → Rhs → Bool)
    (lhs_expr : StateExpr σ Lhs) (rhs_expr : StateExpr σ Rhs)
    (lhs_src rhs_src : String)
    (lhsDebug : Lhs → String) (rhsDebug : Rhs → String)
    (args : Option (StateExpr σ String)) :
    StateExpr σ (Except String Unit) :=
  fun s =>
    let r1 := lhs_expr s
    let r2 := rhs_expr r1.2
    if cmp r1.1 r2.1 then
      (Except.ok (), r2.2)
    else
      match args with
      | none =>
          (bassert_failed kind lhs_src rhs_src r1.1 r2.1 lhsDebug rhsDebug none, r2.2)
      | some argE =>
          let ra := argE r2.2
          (bassert_failed kind lhs_src rhs_src r1.1 r2.1 lhsDebug rhsDebug (some ra.1),
           ra.2)

/-- Embeds the `$lhs:pat = $rhs:tt` arms of `bassert!` (src/src/lib.rs:234-266):
`rhs` is bound exactly once via `match &rhs { rhs => ... }`, the pattern is
tested with `if let`, and on failure `internal::bassert_match_failed` is called,
with the custom-message `format_args!` evaluated inside the failure branch
only.  The two arms are merged via the `args : Option _` parameter. -/
def bassert_match {σ Rhs : Type} (pat : Rhs → Bool)
    (pat_src rhs_src : String)
    (rhs_expr : StateExpr σ Rhs) (rhsDebug : Rhs → String)
    (args : Option (StateExpr σ String)) :
    StateExpr σ (Except String Unit) :=
  fun s =>
    let r := rhs_expr s
    if pat r.1 then
      (Except.ok (), r.2)
    else
      match args with
      | none =>
          (bassert_match_failed pat_src rhs_src r.1 rhsDebug none, r.2)
      | some argE =>
          let ra := argE r.2
          (bassert_match_failed pat_src rhs_src r.1 rhsDebug (some ra.1), ra.2)

/-- The names `#[macro_export]`ed at the `bassert` crate root
(src/src/lib.rs:95-96, 277-278, 287-290): `bassert!`, `debug_bassert!` and
`bassert_internal!`.  These are the only macro names a `$crate::NAME!` path
can resolve to inside an expansion of this crate's macros — the built-in
`cfg!` is reachable only unqualified or as `core::cfg!` / `std::cfg!`, never
through another crate's root. -/
def crate_root_macro_items : List String :=
  ["bassert", "debug_bassert", "bassert_internal"]

/-- Name resolution of a `$crate::NAME!` macro path in an expansion of a
`bassert`-exported macro: the path resolves iff NAME is an exported macro
item of the crate root. -/
def crateMacroResolves (name : String) : Bool :=
  crate_root_macro_items.contains name

/-- Embeds the `debug_bassert!` macro (src/src/lib.rs:278-284).  Its expansion
is `if $crate::cfg!(debug_assertions) { $crate::bassert!(...); }`: the gate
invokes the macro path `$crate::cfg!`.  If that path resolved, the expansion
would run the wrapped check exactly when the `debug_assertions` build flag is
set and otherwise do nothing; when the path does not resolve, the use site is
a compile error (rustc E0433), modelled as `Except.error` at the expansion
level — no run-time check exists at all. -/
def debug_bassert {σ : Type} (debug_assertions : Bool)
    (check : StateExpr σ (Except String Unit)) :
    Except String (StateExpr σ (Except String Unit)) :=
  if crateMacroResolves "cfg" then
    Except.ok (fun s =>
      if debug_assertions then check s else (Except.ok (), s))
  else
    Except.error "E0433: failed to resolve: could not find `cfg` in `bassert`"

/-- A token of a `bassert!` invocation, for the token-level model of the
macro's arm matching: a `tt`/`pat` fragment (carrying its source text), an
operator token, or a comma. -/
inductive BTok where
  | tt (s : String)
  | opTok (s : String)
  | comma
deriving DecidableEq

/-- The operator-token table of the `bassert!` macro arms
(src/src/lib.rs:97-266): which written operator selects which
`BassertKind`. -/
def symKind : String → Option BassertKind
  | "==" => some .Eq
  | "!=" => some .Ne
  | ">" => some .Gt
  | "<" => some .Lt
  | ">=" => some .Gte
  | "<=" => some .Lte
  | "=" => some .Match
  | _ => none

/-- The result of expanding a `bassert!` invocation: the dispatched kind, the
source text of both operand fragments, and the custom-message token list when
one was written (the `$($arg:tt)+` matcher requires it to be nonempty). -/
structure Expansion where
  kind : BassertKind
  lhs_src : String
  rhs_src : String
  fmt : Option (List BTok)
deriving DecidableEq

/-- Embeds the arm structure of the `bassert!` macro (src/src/lib.rs:96-267)
at token level.  Each operator has an arm `$lhs:tt OP $rhs:tt $(,)?`
(three tokens, or four with a single trailing comma, expanding without format
arguments) and an arm `$lhs:tt OP $rhs:tt , $($arg:tt)+` (a comma followed by
at least one argument token).  The `=` arms use `$lhs:pat` instead of
`$lhs:tt` but have the same token shape.  An invocation matching no arm is a
compile error, modelled as `none`. -/
def bassertExpand : List BTok → Option Expansion
  | [.tt l, .opTok o, .tt r] =>
      (symKind o).map fun k => ⟨k, l, r, none⟩
  | [.tt l, .opTok o, .tt r, .comma] =>
      (symKind o).map fun k => ⟨k, l, r, none⟩
  | .tt l :: .opTok o :: .tt r :: .comma :: a₀ :: rest =>
      (symKind o).map fun k => ⟨k, l, r, some (a₀ :: rest)⟩
  | _ => none

/-- Debug rendering of `Option Nat` the way Rust's `Debug` derive renders
`Option<i64>`: `Some(100)` / `None`.  Used for concrete witnesses. -/
def optionDebug : Option Nat → String
  | some n => "Some(" ++ toString n ++ ")"
  | none => "None"

/-- C1: for every comparison operator kind among Eq, Ne, Gt, Lt, Gte, Lte,
when the comparison of the two once-evaluated operands is false, the check
produces a fatal diagnostic (modelled as `Except.error`) whose text is exactly
line 1 `assertion failed: ⟨lhs_src⟩ ⟨op⟩ ⟨rhs_src⟩` (in backticks), line 2
`⟨lhs_src⟩: ⟨lhs_debug⟩,` (with trailing comma), line 3
`⟨rhs_src⟩: ⟨rhs_debug⟩`, where the operator symbol table is exactly
Eq↦==, Ne↦!=, Gt↦>, Lt↦<, Gte↦>=, Lte↦<=, Match↦=. -/
theorem bassert_failure_message_canonical {σ Lhs Rhs : Type}
    (k : BassertKind) (hk : k ≠ BassertKind.Match)
    (cmp : Lhs → Rhs → Bool)
    (e₁ : StateExpr σ Lhs) (e₂ : StateExpr σ Rhs)
    (ls rs : String) (ld : Lhs → String) (rd : Rhs → String) (s : σ)
    (hfail : cmp (e₁ s).1 (e₂ (e₁ s).2).1 = false) :
    (opSymbol BassertKind.Eq = "==" ∧ opSymbol BassertKind.Ne = "!=" ∧
     opSymbol BassertKind.Gt = ">" ∧ opSymbol BassertKind.Lt = "<" ∧
     opSymbol BassertKind.Gte = ">=" ∧ opSymbol BassertKind.Lte = "<=" ∧
     opSymbol BassertKind.Match = "=") ∧
    (bassert_internal k cmp e₁ e₂ ls rs ld rd none s).1 =
      Except.error ("assertion failed: `" ++ ls ++ " " ++ opSymbol k ++ " " ++ rs
        ++ "`\n" ++ ls ++ ": `" ++ ld (e₁ s).1 ++ "`,\n"
        ++ rs ++ ": `" ++ rd (e₂ (e₁ s).2).1 ++ "`") := by
  refine ⟨⟨rfl, rfl, rfl, rfl, rfl, rfl, rfl⟩, ?_⟩
  simp [bassert_internal, bassert_failed, hfail]

/-- Witness for C1: the failing check `bassert!(smaller > larger)` with
`smaller = 2`, `larger = 3` produces exactly the diagnostic the test suite
expects. -/
theorem bassert_failure_message_canonical_witness :
    (bassert_internal BassertKind.Gt (fun a b : Nat => decide (a > b))
        (fun s : Unit => (2, s)) (fun s : Unit => (3, s)) "smaller" "larger"
        (fun n : Nat => toString n) (fun n : Nat => toString n) none ()).1 =
      Except.error "assertion failed: `smaller > larger`\nsmaller: `2`,\nlarger: `3`" := by
  have h := bassert_failure_message_canonical BassertKind.Gt (by decide)
    (fun a b : Nat => decide (a > b)) (fun s : Unit => (2, s)) (fun s : Unit => (3, s))
    "smaller" "larger" (fun n : Nat => toString n) (fun n : Nat => toString n) () (by rfl)
  exact h.2.trans (congrArg Except.error (by decide))

/-- C2: each operand expression is evaluated exactly once per check, whether
the check passes or fails (the comparison result and the pattern result are
universally quantified, covering both outcomes), in both the comparison form
and the pattern-match form, with and without a custom message: a per-operand
evaluation counter threaded through the state ends at exactly one more than it
started. -/
theorem bassert_operands_evaluated_once {Lhs Rhs : Type}
    (k : BassertKind) (cmp : Lhs → Rhs → Bool) (lv : Lhs) (rv : Rhs)
    (ls rs ps : String) (ld : Lhs → String) (rd : Rhs → String)
    (msg : String) (pat : Rhs → Bool) (c₁ c₂ c : Nat) :
    (bassert_internal k cmp
        (fun s : Nat × Nat => (lv, (s.1 + 1, s.2)))
        (fun s : Nat × Nat => (rv, (s.1, s.2 + 1)))
        ls rs ld rd none (c₁, c₂)).2 = (c₁ + 1, c₂ + 1) ∧
    (bassert_internal k cmp
        (fun s : Nat × Nat => (lv, (s.1 + 1, s.2)))
        (fun s : Nat × Nat => (rv, (s.1, s.2 + 1)))
        ls rs ld rd (some (fun s => (msg, s))) (c₁, c₂)).2 = (c₁ + 1, c₂ + 1) ∧
    (bassert_match pat ps rs (fun s : Nat => (rv, s + 1)) rd none c).2 = c + 1 ∧
    (bassert_match pat ps rs (fun s : Nat => (rv, s + 1)) rd
        (some (fun s => (msg, s))) c).2 = c + 1 := by
  refine ⟨?_, ?_, ?_, ?_⟩
  · cases h : cmp lv rv <;> simp [bassert_internal, h]
  · cases h : cmp lv rv <;> simp [bassert_internal, h]
  · cases h : pat rv <;> simp [bassert_match, h]
  · cases h : pat rv <;> simp [bassert_match, h]

/-- C3 (code bug): the claim — and the crate's own documentation of
`debug_bassert!` (src/src/lib.rs:269-276) — says the debug-gated form behaves
identically to `bassert!` in debug builds and is a zero-cost no-op otherwise;
the code cannot deliver this for any wrapped check in any build configuration,
because the expansion's gate `$crate::cfg!(debug_assertions)` names a macro
path that does not resolve (`cfg` is not an exported item of the `bassert`
crate root), so every `debug_bassert!` use site is a compile error instead of
a gated check. -/
theorem debug_bassert_use_is_compile_error {σ : Type}
    (debug_assertions : Bool) (check : StateExpr σ (Except String Unit)) :
    crateMacroResolves "cfg" = false ∧
    debug_bassert debug_assertions check =
      Except.error "E0433: failed to resolve: could not find `cfg` in `bassert`" := by
  refine ⟨by decide, ?_⟩
  simp [debug_bassert, crateMacroResolves, crate_root_macro_items]

/-- C4: for every comparison kind, when the comparison of the two
once-evaluated operands holds, the check returns normally (`Except.ok`) with
no observable effect beyond the operand evaluations themselves: no diagnostic
is produced, no termination occurs, and the custom-message expression (if
supplied) is not run, so the final state is exactly the state after evaluating
the two operands. -/
theorem bassert_success_silent {σ Lhs Rhs : Type}
    (k : BassertKind) (hk : k ≠ BassertKind.Match)
    (cmp : Lhs → Rhs → Bool)
    (e₁ : StateExpr σ Lhs) (e₂ : StateExpr σ Rhs)
    (ls rs : String) (ld : Lhs → String) (rd : Rhs → String)
    (args : Option (StateExpr σ String)) (s : σ)
    (hpass : cmp (e₁ s).1 (e₂ (e₁ s).2).1 = true) :
    bassert_internal k cmp e₁ e₂ ls rs ld rd args s =
      (Except.ok (), (e₂ (e₁ s).2).2) := by
  simp [bassert_internal, hpass]

/-- Witness for C4: `bassert!(larger > smaller)` with `larger = 3`,
`smaller = 2` passes silently. -/
theorem bassert_success_silent_witness :
    bassert_internal BassertKind.Gt (fun a b : Nat => decide (a > b))
        (fun s : Unit => (3, s)) (fun s : Unit => (2, s)) "larger" "smaller"
        (fun n : Nat => toString n) (fun n : Nat => toString n) none () =
      (Except.ok (), ()) :=
  bassert_success_silent BassertKind.Gt (by decide)
    (fun a b : Nat => decide (a > b)) (fun s : Unit => (3, s)) (fun s : Unit => (2, s))
    "larger" "smaller" (fun n : Nat => toString n) (fun n : Nat => toString n) none ()
    (by rfl)

/-- C5: the pattern-match form returns normally with no observable effect when
the once-evaluated value matches the pattern, and when it does not match
produces a fatal diagnostic of exactly the form line 1
`assertion failed: ⟨pattern⟩ = ⟨rhs_src⟩` (in backticks, with the symbol `=`),
line 2 `⟨rhs_src⟩: ⟨rhs_debug⟩` — a single value line, for the right-hand side
only. -/
theorem bassert_match_spec {σ Rhs : Type} (pat : Rhs → Bool)
    (ps rs : String) (e : StateExpr σ Rhs) (rd : Rhs → String) (s : σ) :
    (pat (e s).1 = true →
      bassert_match pat ps rs e rd none s = (Except.ok (), (e s).2)) ∧
    (pat (e s).1 = false →
      (bassert_match pat ps rs e rd none s).1 =
        Except.error ("assertion failed: `" ++ ps ++ " = " ++ rs
          ++ "`\n" ++ rs ++ ": `" ++ rd (e s).1 ++ "`")) := by
  constructor <;> intro h <;> simp [bassert_match, bassert_match_failed, h]

/-- Witness for C5: with `val = Some(100)`, `bassert!(Some(_) = val)` passes
silently and `bassert!(None = val)` fails with exactly the message the test
suite expects. -/
theorem bassert_match_spec_witness :
    bassert_match (fun v : Option Nat => v.isSome) "Some(_)" "val"
        (fun s : Unit => (some 100, s)) optionDebug none () = (Except.ok (), ()) ∧
    (bassert_match (fun v : Option Nat => v.isNone) "None" "val"
        (fun s : Unit => (some 100, s)) optionDebug none ()).1 =
      Except.error "assertion failed: `None = val`\nval: `Some(100)`" := by
  constructor
  · exact (bassert_match_spec (fun v : Option Nat => v.isSome) "Some(_)" "val"
      (fun s : Unit => (some 100, s)) optionDebug ()).1 rfl
  · have h := (bassert_match_spec (fun v : Option Nat => v.isNone) "None" "val"
      (fun s : Unit => (some 100, s)) optionDebug ()).2 rfl
    exact h.trans (congrArg Except.error (by decide))

/-- Splitting the closing-backtick-plus-separator literal: used to relate the
with-message diagnostic to the no-message one. -/
theorem backtick_colon_split : ("`: " : String) = "`" ++ ": " := rfl

/-- C6: when a custom message is supplied and the assertion fails, both
reporters append the formatted custom message after a colon and a space at the
end of the last value line, leaving the rest of the diagnostic unchanged: the
with-message diagnostic is exactly the no-message diagnostic followed by
`: ⟨message⟩`. -/
theorem bassert_custom_message_appended {Lhs Rhs : Type}
    (k : BassertKind) (ls rs ps : String) (lv : Lhs) (rv : Rhs)
    (ld : Lhs → String) (rd : Rhs → String) (m : String) :
    (∃ base : String,
      bassert_failed k ls rs lv rv ld rd none = Except.error base ∧
      bassert_failed k ls rs lv rv ld rd (some m) =
        Except.error (base ++ ": " ++ m)) ∧
    (∃ base : String,
      bassert_match_failed ps rs rv rd none = Except.error base ∧
      bassert_match_failed ps rs rv rd (some m) =
        Except.error (base ++ ": " ++ m)) := by
  constructor
  · refine ⟨_, rfl, ?_⟩
    simp only [bassert_failed, backtick_colon_split, String.append_assoc]
  · refine ⟨_, rfl, ?_⟩
    simp only [bassert_match_failed, backtick_colon_split, String.append_assoc]

/-- C7: a failure diagnostic is constructed if and only if the comparison (or
the pattern test) evaluates to false; on the success path no failure message
is built and the custom-message format-argument expression is not evaluated at
all — with a custom message supplied, a passing check leaves the state exactly
as it is after the two operand evaluations, so the message arguments' side
effects do not occur. -/
theorem bassert_failure_context_iff {σ Lhs Rhs : Type}
    (k : BassertKind) (cmp : Lhs → Rhs → Bool)
    (e₁ : StateExpr σ Lhs) (e₂ : StateExpr σ Rhs) (e : StateExpr σ Rhs)
    (pat : Rhs → Bool)
    (ls rs ps : String) (ld : Lhs → String) (rd : Rhs → String) (s : σ) :
    (∀ args, (∃ m, (bassert_internal k cmp e₁ e₂ ls rs ld rd args s).1 =
        Except.error m) ↔ cmp (e₁ s).1 (e₂ (e₁ s).2).1 = false) ∧
    (∀ argE, cmp (e₁ s).1 (e₂ (e₁ s).2).1 = true →
      bassert_internal k cmp e₁ e₂ ls rs ld rd (some argE) s =
        (Except.ok (), (e₂ (e₁ s).2).2)) ∧
    (∀ args, (∃ m, (bassert_match pat ps rs e rd args s).1 =
        Except.error m) ↔ pat (e s).1 = false) ∧
    (∀ argE, pat (e s).1 = true →
      bassert_match pat ps rs e rd (some argE) s = (Except.ok (), (e s).2)) := by
  refine ⟨fun args => ?_, fun argE h => ?_, fun args => ?_, fun argE h => ?_⟩
  · cases h : cmp (e₁ s).1 (e₂ (e₁ s).2).1 <;>
      cases args <;> simp [bassert_internal, bassert_failed, h]
  · simp [bassert_internal, h]
  · cases h : pat (e s).1 <;>
      cases args <;> simp [bassert_match, bassert_match_failed, h]
  · simp [bassert_match, h]

/-- Witness for C7: a passing `bassert!(3 > 2, msg)` whose custom-message
expression increments a counter leaves the counter untouched (the format
arguments were not evaluated), and for the failing comparison the diagnostic
exists. -/
theorem bassert_failure_context_iff_witness :
    (∃ m, (bassert_internal BassertKind.Gt (fun a b : Nat => decide (a > b))
        (fun s : Nat => (2, s)) (fun s : Nat => (3, s)) "smaller" "larger"
        (fun n : Nat => toString n) (fun n : Nat => toString n) none 0).1 =
      Except.error m) ∧
    bassert_internal BassertKind.Gt (fun a b : Nat => decide (a > b))
        (fun s : Nat => (3, s)) (fun s : Nat => (2, s)) "larger" "smaller"
        (fun n : Nat => toString n) (fun n : Nat => toString n)
        (some (fun s : Nat => ("boom", s + 1))) 0 = (Except.ok (), 0) := by
  constructor
  · exact ((bassert_failure_context_iff BassertKind.Gt (fun a b : Nat => decide (a > b))
      (fun s : Nat => (2, s)) (fun s : Nat => (3, s)) (fun s : Nat => (3, s))
      (fun _ => true) "smaller" "larger" "p"
      (fun n : Nat => toString n) (fun n : Nat => toString n) 0).1 none).mpr rfl
  · exact (bassert_failure_context_iff BassertKind.Gt (fun a b : Nat => decide (a > b))
      (fun s : Nat => (3, s)) (fun s : Nat => (2, s)) (fun s : Nat => (2, s))
      (fun _ => true) "larger" "smaller" "p"
      (fun n : Nat => toString n) (fun n : Nat => toString n) 0).2.1
      (fun s : Nat => ("boom", s + 1)) rfl

/-- C8: the failure reporters never return control: both produce an error
(the model of a fatal, non-returning panic) for every input, and consequently
a failing check can never yield the normal `Except.ok ()` result — a caller
cannot observe a false comparison and continue past it. -/
theorem bassert_reporter_never_returns {σ Lhs Rhs : Type}
    (k : BassertKind) (ls rs ps : String) (lv : Lhs) (rv : Rhs)
    (ld : Lhs → String) (rd : Rhs → String) (a₁ a₂ : Option String)
    (cmp : Lhs → Rhs → Bool) (e₁ : StateExpr σ Lhs) (e₂ : StateExpr σ Rhs)
    (pat : Rhs → Bool) (e : StateExpr σ Rhs)
    (args : Option (StateExpr σ String)) (s : σ) :
    (∃ m, bassert_failed k ls rs lv rv ld rd a₁ = Except.error m) ∧
    (∃ m, bassert_match_failed ps rs rv rd a₂ = Except.error m) ∧
    (cmp (e₁ s).1 (e₂ (e₁ s).2).1 = false →
      (bassert_internal k cmp e₁ e₂ ls rs ld rd args s).1 ≠ Except.ok ()) ∧
    (pat (e s).1 = false →
      (bassert_match pat ps rs e rd args s).1 ≠ Except.ok ()) := by
  refine ⟨?_, ?_, fun h => ?_, fun h => ?_⟩
  · cases a₁ <;> exact ⟨_, rfl⟩
  · cases a₂ <;> exact ⟨_, rfl⟩
  · cases args <;> simp [bassert_internal, bassert_failed, h]
  · cases args <;> simp [bassert_match, bassert_match_failed, h]

/-- Witness for C8: the reporter output for a concrete failing `2 > 3` check
is an error, never the normal result. -/
theorem bassert_reporter_never_returns_witness :
    (∃ m, bassert_failed BassertKind.Gt "smaller" "larger" (2 : Nat) (3 : Nat)
        (fun n : Nat => toString n) (fun n : Nat => toString n) none =
      Except.error m) ∧
    (bassert_internal BassertKind.Gt (fun a b : Nat => decide (a > b))
        (fun s : Unit => (2, s)) (fun s : Unit => (3, s)) "smaller" "larger"
        (fun n : Nat => toString n) (fun n : Nat => toString n) none ()).1 ≠
      Except.ok () := by
  have h := bassert_reporter_never_returns BassertKind.Gt "smaller" "larger" "p"
    (2 : Nat) (3 : Nat) (fun n : Nat => toString n) (fun n : Nat => toString n)
    none none (fun a b : Nat => decide (a > b))
    (fun s : Unit => (2, s)) (fun s : Unit => (3, s))
    (fun _ => true) (fun s : Unit => (3, s)) none ()
  exact ⟨h.1, h.2.2.1 rfl⟩

/-- C9: failure-message formatting is deterministic: two invocations of the
reporter with the same kind, the same source-text labels, the same operand
debug renderings and the same optional custom message produce byte-identical
diagnostics, even when the operand values and their debug implementations
differ as long as the rendered texts coincide. -/
theorem bassert_failed_deterministic {Lhs Rhs Lhs' Rhs' : Type}
    (k : BassertKind) (ls rs : String)
    (lv : Lhs) (rv : Rhs) (lv' : Lhs') (rv' : Rhs')
    (ld : Lhs → String) (rd : Rhs → String)
    (ld' : Lhs' → String) (rd' : Rhs' → String) (a : Option String)
    (hl : ld lv = ld' lv') (hr : rd rv = rd' rv') :
    bassert_failed k ls rs lv rv ld rd a =
      bassert_failed k ls rs lv' rv' ld' rd' a := by
  cases a <;> simp [bassert_failed, hl, hr]

/-- Witness for C9: rendering the number 2 via `toString` and the string "2"
via the identity gives byte-identical diagnostics. -/
theorem bassert_failed_deterministic_witness :
    bassert_failed BassertKind.Gt "smaller" "larger" (2 : Nat) (3 : Nat)
        (fun n : Nat => toString n) (fun n : Nat => toString n) none =
      bassert_failed BassertKind.Gt "smaller" "larger" "2" "3"
        (fun s : String => s) (fun s : String => s) none :=
  bassert_failed_deterministic BassertKind.Gt "smaller" "larger"
    (2 : Nat) (3 : Nat) "2" "3"
    (fun n : Nat => toString n) (fun n : Nat => toString n)
    (fun s : String => s) (fun s : String => s) none (by decide) (by decide)

/-- C10: for every operator form (the six comparison operators and the
pattern-match `=` form) without a custom message, an invocation with a single
trailing comma after the expression expands exactly like the invocation
without it, and both expand to the dispatched kind with the two operand source
texts and no format arguments. -/
theorem bassert_trailing_comma (k : BassertKind) (l r : String) :
    bassertExpand [BTok.tt l, BTok.opTok (opSymbol k), BTok.tt r, BTok.comma] =
      bassertExpand [BTok.tt l, BTok.opTok (opSymbol k), BTok.tt r] ∧
    bassertExpand [BTok.tt l, BTok.opTok (opSymbol k), BTok.tt r] =
      some ⟨k, l, r, none⟩ := by
  cases k <;> exact ⟨rfl, rfl⟩

end Bassert
